import Mathlib

/-!
Verification of the OpenBB hub-service / chart-model specification.

The repository excerpt contains the chart data-holder model
(`openbb_core/app/model/charts/chart.py`) and the test suite of the hub
service (`tests/app/service/test_hub_service.py`).  The hub service module
itself (`hub_service.py`) and the pydantic library semantics are not among
the source files, so the session-bridge operations below are modelled from
the specification, faithful to its words; the chart model is embedded from
the source file.
-/

namespace OpenBB

/-- Modelled from the spec: a secret string value (pydantic `SecretStr`);
the module holding it is not in the sources.  It wraps a plain string,
recoverable only through an explicit `get_secret_value` call. -/
structure SecretStr where
  secretValue : String
deriving DecidableEq

/-- Modelled from the spec: the explicit accessor for the wrapped secret. -/
def SecretStr.get_secret_value (s : SecretStr) : String :=
  s.secretValue

/-- Modelled from the spec: "string form redacts the value" — the plain-text
rendering of a secret is a fixed mask, independent of the stored value. -/
def SecretStr.render (_ : SecretStr) : String :=
  "**********"

/-- Modelled from the spec: the hub-side flat record of provider keys
(`FeaturesKeys`), restricted to the known keys named by the spec and the
tests.  Each key is optional. -/
structure FeaturesKeys where
  API_KEY_FINANCIALMODELINGPREP : Option String := none
  API_POLYGON_KEY : Option String := none
  API_FRED_KEY : Option String := none
deriving DecidableEq

/-- Modelled from the spec: the local schema record of provider credentials,
with the local field names; secret-valued. -/
structure Credentials where
  fmp_api_key : Option SecretStr := none
  polygon_api_key : Option SecretStr := none
  fred_api_key : Option SecretStr := none
deriving DecidableEq

/-- Modelled from the spec: the hub user settings, which carry the
feature-keys record. -/
structure HubUserSettings where
  features_keys : FeaturesKeys
deriving DecidableEq

/-- Modelled from the spec: `hubToLocal` (`HubService.hub2platform`) — applies
the FeatureKeys→Credentials field-mapping table, wrapping each present value
as a secret. -/
def hub2platform (s : HubUserSettings) : Credentials :=
  { fmp_api_key := s.features_keys.API_KEY_FINANCIALMODELINGPREP.map SecretStr.mk
    polygon_api_key := s.features_keys.API_POLYGON_KEY.map SecretStr.mk
    fred_api_key := s.features_keys.API_FRED_KEY.map SecretStr.mk }

/-- Modelled from the spec: `localToHub` (`HubService.platform2hub`) — the
inverse mapping, reading each secret back through `get_secret_value`. -/
def platform2hub (c : Credentials) : HubUserSettings :=
  { features_keys :=
    { API_KEY_FINANCIALMODELINGPREP := c.fmp_api_key.map SecretStr.get_secret_value
      API_POLYGON_KEY := c.polygon_api_key.map SecretStr.get_secret_value
      API_FRED_KEY := c.fred_api_key.map SecretStr.get_secret_value } }

/-- C1: `localToHub` and `hubToLocal` are exact inverses on every value built
from the known key pairs, in both directions. -/
theorem hub2platform_platform2hub_round_trip :
    (∀ s : HubUserSettings, platform2hub (hub2platform s) = s) ∧
    (∀ c : Credentials, hub2platform (platform2hub c) = c) := by
  constructor
  · rintro ⟨⟨a, b, c⟩⟩
    cases a <;> cases b <;> cases c <;> rfl
  · rintro ⟨a, b, c⟩
    cases a <;> cases b <;> cases c <;> rfl

/-- C2: `hub2platform` on the feature keys
`API_KEY_FINANCIALMODELINGPREP="fmp"`, `API_POLYGON_KEY="polygon"`,
`API_FRED_KEY="fred"` yields credentials whose `fmp_api_key` secret value is
"fmp", `polygon_api_key` is "polygon" and `fred_api_key` is "fred". -/
theorem hub2platform_known_keys :
    (hub2platform
      { features_keys :=
        { API_KEY_FINANCIALMODELINGPREP := some "fmp"
          API_POLYGON_KEY := some "polygon"
          API_FRED_KEY := some "fred" } }).fmp_api_key.map
        SecretStr.get_secret_value = some "fmp" ∧
    (hub2platform
      { features_keys :=
        { API_KEY_FINANCIALMODELINGPREP := some "fmp"
          API_POLYGON_KEY := some "polygon"
          API_FRED_KEY := some "fred" } }).polygon_api_key.map
        SecretStr.get_secret_value = some "polygon" ∧
    (hub2platform
      { features_keys :=
        { API_KEY_FINANCIALMODELINGPREP := some "fmp"
          API_POLYGON_KEY := some "polygon"
          API_FRED_KEY := some "fred" } }).fred_api_key.map
        SecretStr.get_secret_value = some "fred" := by
  exact ⟨rfl, rfl, rfl⟩

/-- Modelled from the spec: the token payload / authentication-response JSON
fields (`access_token`, `token_type`, `uuid`, `email`, `username`,
`primary_usage`). -/
structure SessionPayload where
  access_token : String
  token_type : String
  uuid : String
  email : String
  username : String
  primary_usage : String
deriving DecidableEq

/-- Modelled from the spec: a `HubSession` — access token (secret), token
type, user id, email, username, usage tag; created on successful
authentication. -/
structure HubSession where
  access_token : SecretStr
  token_type : String
  uuid : String
  email : String
  username : String
  primary_usage : String
deriving DecidableEq

/-- Modelled from the spec: parsing a token payload into a `HubSession`. -/
def sessionFromPayload (p : SessionPayload) : HubSession :=
  { access_token := ⟨p.access_token⟩
    token_type := p.token_type
    uuid := p.uuid
    email := p.email
    username := p.username
    primary_usage := p.primary_usage }

/-- Modelled from the spec: a JWT-like personal access token, with a header,
a payload of session fields and a signature. -/
structure PlatformToken where
  header : String
  payload : SessionPayload
  signature : String
deriving DecidableEq

/-- Modelled from the spec: the response of the HTTP authentication call — a
status code, the session payload on success, and the server message carried
by errors. -/
structure AuthResponse where
  status_code : Nat
  payload : SessionPayload
  detail : String
deriving DecidableEq

/-- Modelled from the spec: the response of the logout/invalidation call. -/
structure LogoutResponse where
  status_code : Nat
  success : Bool
deriving DecidableEq

/-- Modelled from the spec: the response of the settings GET call. -/
structure SettingsResponse where
  status_code : Nat
  settings : HubUserSettings
  detail : String
deriving DecidableEq

/-- Modelled from the spec: the response of the settings PUT call. -/
structure PushResponse where
  status_code : Nat
deriving DecidableEq

/-- Modelled from the spec: the error kinds — `InvalidArgument` (missing
required connect parameters) and `AuthenticationError` (non-200 from any hub
call, or operation attempted without an active session). -/
inductive OpenBBError where
  | invalidArgument (msg : String)
  | authenticationError (msg : String)
deriving DecidableEq

/-- Modelled from the spec: the `SessionBridge` (`HubService`) state — the
one held session reference; `none` is the ABSENT state, `some` ACTIVE. -/
structure HubService where
  session : Option HubSession := none
deriving DecidableEq

/-- The exact message of the missing-parameters error. -/
def missingConnectArgsMsg : String :=
  "Please provide 'email' and 'password' or 'pat'"

/-- Modelled from the spec: `connect(email?, password?, pat?)` — a personal
access token takes the token path, otherwise email+password take the
password path; with neither, an `InvalidArgument` error with the exact
message.  Each path performs the HTTP authentication call: on non-200 it
fails with an `AuthenticationError` carrying the server message; on success
it parses the token payload into a `HubSession`, which the bridge then
holds. -/
def connect (svc : HubService) (email password : Option String)
    (pat : Option PlatformToken) (resp : AuthResponse) :
    Except OpenBBError (HubSession × HubService) :=
  match pat with
  | some tok =>
      if resp.status_code = 200 then
        let s := sessionFromPayload tok.payload
        .ok (s, { svc with session := some s })
      else .error (.authenticationError resp.detail)
  | none =>
      match email, password with
      | some _, some _ =>
          if resp.status_code = 200 then
            let s := sessionFromPayload resp.payload
            .ok (s, { svc with session := some s })
          else .error (.authenticationError resp.detail)
      | _, _ => .error (.invalidArgument missingConnectArgsMsg)

/-- Modelled from the spec: `disconnect()` — with a held session it calls the
remote invalidation endpoint, clears the held session regardless, and
returns true exactly on HTTP 200; a no-op if already ABSENT. -/
def disconnect (svc : HubService) (resp : LogoutResponse) :
    Bool × HubService :=
  match svc.session with
  | some _ => (resp.status_code == 200, { svc with session := none })
  | none => (false, svc)

/-- Modelled from the spec: `pullSettings` — requires an ACTIVE session
(`AuthenticationError` if ABSENT); fetches remote settings, failing with
`AuthenticationError` on non-200. -/
def pullSettings (svc : HubService) (resp : SettingsResponse) :
    Except OpenBBError HubUserSettings :=
  match svc.session with
  | none => .error (.authenticationError "No session found.")
  | some _ =>
      if resp.status_code = 200 then .ok resp.settings
      else .error (.authenticationError resp.detail)

/-- Modelled from the spec: `pushSettings` — requires an ACTIVE session
(`AuthenticationError` if ABSENT); authenticated PUT returning true iff the
response is 200. -/
def pushSettings (svc : HubService) (settings : HubUserSettings)
    (resp : PushResponse) : Except OpenBBError Bool :=
  match svc.session with
  | none => .error (.authenticationError "No session found.")
  | some _ => .ok (resp.status_code == 200)

/-- C3: `connect` with no email, no password and no personal access token, on
a bridge in the ABSENT state, fails with an `InvalidArgument` error whose
message is exactly "Please provide 'email' and 'password' or 'pat'". -/
theorem connect_without_credentials (svc : HubService)
    (resp : AuthResponse) (h : svc.session = none) :
    connect svc none none none resp =
      .error (.invalidArgument
        "Please provide 'email' and 'password' or 'pat'") := by
  rfl

/-- Witness for C3 at a concrete ABSENT bridge and response. -/
theorem connect_without_credentials_witness :
    connect { session := none } none none none
        { status_code := 200
          payload := ⟨"t", "Bearer", "u", "e", "n", "p"⟩
          detail := "" } =
      .error (.invalidArgument
        "Please provide 'email' and 'password' or 'pat'") :=
  connect_without_credentials { session := none } _ rfl

/-- C4: `connect(email, password)` on an HTTP 200 response yields an ACTIVE
session — the returned session is the one the bridge holds afterwards — and
on a non-200 response it fails with an `AuthenticationError`. -/
theorem connect_email_password (svc : HubService) (e p : String)
    (resp : AuthResponse) :
    (resp.status_code = 200 →
      ∃ s svc2, connect svc (some e) (some p) none resp = .ok (s, svc2) ∧
        svc2.session = some s) ∧
    (resp.status_code ≠ 200 →
      connect svc (some e) (some p) none resp =
        .error (.authenticationError resp.detail)) := by
  constructor
  · intro h
    refine ⟨sessionFromPayload resp.payload,
      { svc with session := some (sessionFromPayload resp.payload) }, ?_, rfl⟩
    simp [connect, h]
  · intro h
    simp [connect, h]

/-- Witness for C4 at concrete 200 and 401 responses. -/
theorem connect_email_password_witness :
    ((200 : Nat) = 200 →
      ∃ s svc2,
        connect { session := none } (some "a@b.c") (some "pw") none
          { status_code := 200
            payload := ⟨"t", "Bearer", "u", "e", "n", "g"⟩
            detail := "" } = .ok (s, svc2) ∧ svc2.session = some s) ∧
    ((401 : Nat) ≠ 200 →
      connect { session := none } (some "a@b.c") (some "pw") none
        { status_code := 401
          payload := ⟨"t", "Bearer", "u", "e", "n", "g"⟩
          detail := "bad login" } =
        .error (.authenticationError "bad login")) :=
  ⟨fun h => (connect_email_password { session := none } "a@b.c" "pw"
      { status_code := 200
        payload := ⟨"t", "Bearer", "u", "e", "n", "g"⟩
        detail := "" }).1 h,
   fun h => (connect_email_password { session := none } "a@b.c" "pw"
      { status_code := 401
        payload := ⟨"t", "Bearer", "u", "e", "n", "g"⟩
        detail := "bad login" }).2 h⟩

/-- C5: `connect` with a personal access token on an HTTP 200 response
decodes the token payload fields `access_token`, `token_type`, `uuid`,
`username`, `email` and `primary_usage` into the returned session. -/
theorem connect_pat_decodes_payload (svc : HubService)
    (tok : PlatformToken) (resp : AuthResponse)
    (h : resp.status_code = 200) :
    ∃ svc2, connect svc none none (some tok) resp =
      .ok
        ({ access_token := ⟨tok.payload.access_token⟩
           token_type := tok.payload.token_type
           uuid := tok.payload.uuid
           username := tok.payload.username
           email := tok.payload.email
           primary_usage := tok.payload.primary_usage }, svc2) := by
  refine ⟨{ svc with session := some (sessionFromPayload tok.payload) }, ?_⟩
  simp [connect, h, sessionFromPayload]

/-- Witness for C5 at a concrete token and 200 response. -/
theorem connect_pat_decodes_payload_witness :
    ∃ svc2,
      connect { session := none } none none
        (some { header := "hdr"
                payload := ⟨"token", "Bearer", "uuid", "email", "username",
                  "primary_usage"⟩
                signature := "sig" })
        { status_code := 200
          payload := ⟨"", "", "", "", "", ""⟩
          detail := "" } =
      .ok
        ({ access_token := ⟨"token"⟩
           token_type := "Bearer"
           uuid := "uuid"
           username := "username"
           email := "email"
           primary_usage := "primary_usage" }, svc2) := by
  exact connect_pat_decodes_payload { session := none }
    { header := "hdr"
      payload := ⟨"token", "Bearer", "uuid", "email", "username",
        "primary_usage"⟩
      signature := "sig" }
    { status_code := 200
      payload := ⟨"", "", "", "", "", ""⟩
      detail := "" } rfl

/-- C6: `disconnect` on a bridge holding an ACTIVE session, when the remote
invalidation call returns HTTP 200, returns true and leaves the bridge in
the ABSENT state. -/
theorem disconnect_active_200 (svc : HubService) (s : HubSession)
    (resp : LogoutResponse) (hs : svc.session = some s)
    (hr : resp.status_code = 200) :
    (disconnect svc resp).1 = true ∧
      (disconnect svc resp).2.session = none := by
  simp [disconnect, hs, hr]

/-- Witness for C6 at a concrete ACTIVE bridge and 200 response. -/
theorem disconnect_active_200_witness :
    (disconnect
        { session := some (sessionFromPayload
            ⟨"token", "Bearer", "uuid", "email", "username", "usage"⟩) }
        { status_code := 200, success := true }).1 = true ∧
      (disconnect
        { session := some (sessionFromPayload
            ⟨"token", "Bearer", "uuid", "email", "username", "usage"⟩) }
        { status_code := 200, success := true }).2.session = none :=
  disconnect_active_200 _ _ _ rfl rfl

/-- C7: the operations other than connect and disconnect — `pullSettings`
and `pushSettings` — fail with an `AuthenticationError` when the bridge is
in the ABSENT state. -/
theorem settings_require_active_session (svc : HubService)
    (h : svc.session = none) :
    (∀ resp : SettingsResponse, ∃ m,
      pullSettings svc resp = .error (.authenticationError m)) ∧
    (∀ (st : HubUserSettings) (resp : PushResponse), ∃ m,
      pushSettings svc st resp = .error (.authenticationError m)) := by
  constructor
  · intro resp
    exact ⟨"No session found.", by simp [pullSettings, h]⟩
  · intro st resp
    exact ⟨"No session found.", by simp [pushSettings, h]⟩

/-- Witness for C7 at a concrete ABSENT bridge. -/
theorem settings_require_active_session_witness :
    (∀ resp : SettingsResponse, ∃ m,
      pullSettings { session := none } resp =
        .error (.authenticationError m)) ∧
    (∀ (st : HubUserSettings) (resp : PushResponse), ∃ m,
      pushSettings { session := none } st resp =
        .error (.authenticationError m)) :=
  settings_require_active_session { session := none } rfl

/-- Modelled from the spec: the plain-text rendering of a session; the secret
access token is redacted through `SecretStr.render`, the non-secret fields
are shown. -/
def renderSession (s : HubSession) : String :=
  "HubSession(access_token=" ++ s.access_token.render ++
    ", token_type=" ++ s.token_type ++ ", uuid=" ++ s.uuid ++
    ", email=" ++ s.email ++ ", username=" ++ s.username ++
    ", primary_usage=" ++ s.primary_usage ++ ")"

/-- Modelled from the spec: the rendering of one optional secret field. -/
def renderOptSecret : Option SecretStr → String
  | none => "None"
  | some s => s.render

/-- Modelled from the spec: the plain-text rendering of the credentials;
every stored secret is redacted. -/
def renderCredentials (c : Credentials) : String :=
  "Credentials(fmp_api_key=" ++ renderOptSecret c.fmp_api_key ++
    ", polygon_api_key=" ++ renderOptSecret c.polygon_api_key ++
    ", fred_api_key=" ++ renderOptSecret c.fred_api_key ++ ")"

/-- C8: the plain-text rendering never depends on a stored secret value —
for sessions agreeing on every non-secret field, and for credentials storing
secrets for the same keys, the renderings are identical, whatever the
secrets are. -/
theorem render_redacts_secrets :
    (∀ s1 s2 : HubSession,
      s1.token_type = s2.token_type → s1.uuid = s2.uuid →
      s1.email = s2.email → s1.username = s2.username →
      s1.primary_usage = s2.primary_usage →
      renderSession s1 = renderSession s2) ∧
    (∀ c1 c2 : Credentials,
      c1.fmp_api_key.isSome = c2.fmp_api_key.isSome →
      c1.polygon_api_key.isSome = c2.polygon_api_key.isSome →
      c1.fred_api_key.isSome = c2.fred_api_key.isSome →
      renderCredentials c1 = renderCredentials c2) := by
  constructor
  · intro s1 s2 h1 h2 h3 h4 h5
    simp [renderSession, SecretStr.render, h1, h2, h3, h4, h5]
  · rintro ⟨a1, b1, c1⟩ ⟨a2, b2, c2⟩ h1 h2 h3
    cases a1 <;> cases a2 <;> cases b1 <;> cases b2 <;>
      cases c1 <;> cases c2 <;>
      simp_all [renderCredentials, renderOptSecret, SecretStr.render,
        Option.isSome]

/-- Witness for C8: two sessions and two credential records differing only
in their secret values render identically. -/
theorem render_redacts_secrets_witness :
    renderSession (sessionFromPayload
        ⟨"secret-one", "Bearer", "uuid", "email", "username", "usage"⟩) =
      renderSession (sessionFromPayload
        ⟨"secret-two", "Bearer", "uuid", "email", "username", "usage"⟩) ∧
    renderCredentials
        { fmp_api_key := some ⟨"fmp-secret"⟩
          polygon_api_key := some ⟨"polygon-secret"⟩
          fred_api_key := none } =
      renderCredentials
        { fmp_api_key := some ⟨"other-fmp"⟩
          polygon_api_key := some ⟨"other-polygon"⟩
          fred_api_key := none } :=
  ⟨render_redacts_secrets.1 _ _ rfl rfl rfl rfl rfl,
   render_redacts_secrets.2 _ _ rfl rfl rfl⟩

/-- A dynamically-typed value, standing for the Python `Any` in the chart's
`content` mapping and `fig` field. -/
inductive PyVal where
  | pyNone
  | pyStr (s : String)
  | pyInt (n : Int)
  | pyBool (b : Bool)
deriving DecidableEq

/-- `ChartFormat` from `chart.py`: a string enum with the single variant
`plotly`. -/
inductive ChartFormat where
  | plotly
deriving DecidableEq

/-- The string value of each `ChartFormat` variant, as in the source enum. -/
def ChartFormat.value : ChartFormat → String
  | .plotly => "plotly"

/-- `Chart` from `chart.py`: optional raw `content` mapping, optional
`format` tag defaulting to `plotly`, optional opaque `fig` handle. -/
structure Chart where
  content : Option (List (String × PyVal)) := none
  format : Option ChartFormat := some .plotly
  fig : Option PyVal := none
deriving DecidableEq

/-- The chart's field names, in declaration order. -/
inductive ChartFieldName where
  | content
  | format
  | fig
deriving DecidableEq

/-- The serialized name of each field. -/
def ChartFieldName.pyName : ChartFieldName → String
  | .content => "content"
  | .format => "format"
  | .fig => "fig"

/-- The `exclude_from_api` marker of each field, from the source: only `fig`
carries `json_schema_extra={"exclude_from_api": True}`. -/
def ChartFieldName.exclude_from_api : ChartFieldName → Bool
  | .content => false
  | .format => false
  | .fig => true

/-- The chart's fields in declaration order. -/
def chartFieldNames : List ChartFieldName :=
  [.content, .format, .fig]

/-- The serialized value of one chart field. -/
inductive DumpVal where
  | dNone
  | dStr (s : String)
  | dDict (xs : List (String × PyVal))
  | dAny (v : PyVal)
deriving DecidableEq

/-- Dump one field of a chart to its serialized value; the format tag dumps
to its enum string value. -/
def Chart.dumpField (c : Chart) : ChartFieldName → DumpVal
  | .content =>
      match c.content with
      | none => .dNone
      | some m => .dDict m
  | .format =>
      match c.format with
      | none => .dNone
      | some fm => .dStr fm.value
  | .fig =>
      match c.fig with
      | none => .dNone
      | some v => .dAny v

/-- Modelled from the spec: the external API serialization of a chart —
every field not marked `exclude_from_api`, as name/value pairs (the consumer
of the `exclude_from_api` marker is not among the source files). -/
def Chart.apiSerialize (c : Chart) : List (String × DumpVal) :=
  (chartFieldNames.filter (fun f => ! f.exclude_from_api)).map
    (fun f => (f.pyName, c.dumpField f))

/-- C9: every external API serialization of a chart carries exactly the
`content` and `format` fields — the `fig` field is excluded — and the format
tag's type has the single variant "plotly". -/
theorem chart_api_serialization_excludes_fig :
    (∀ c : Chart, (c.apiSerialize.map Prod.fst = ["content", "format"]) ∧
      "fig" ∉ c.apiSerialize.map Prod.fst) ∧
    (∀ f : ChartFormat, f.value = "plotly") := by
  constructor
  · intro c
    constructor
    · rfl
    · intro h
      simp [Chart.apiSerialize, chartFieldNames, ChartFieldName.pyName,
        ChartFieldName.exclude_from_api] at h
  · intro f
    cases f
    rfl

/-- Modelled from the spec: pydantic validation of the
`Optional[ChartFormat]` field — `None` passes, a string equal to the value
of a `ChartFormat` variant coerces to that variant, and everything else is
rejected (`none`). -/
def parseChartFormat : PyVal → Option (Option ChartFormat)
  | .pyNone => some none
  | .pyStr s => if s = "plotly" then some (some .plotly) else none
  | _ => none

/-- Modelled from the spec: assignment to `format` under
`model_config = ConfigDict(validate_assignment=True)` — a valid value
updates the field, an invalid one raises a validation error and leaves the
record unchanged. -/
def Chart.setFormat (c : Chart) (v : PyVal) : Chart × Option String :=
  match parseChartFormat v with
  | some fm => ({ c with format := fm }, none)
  | none => (c, some "ValidationError")

/-- C10: after any construction or validated assignment the `format` field
is `none` or the valid variant `plotly`, and assigning a value that is not a
valid format is rejected with an error and leaves the record unchanged. -/
theorem chart_format_assignment_validated :
    (∀ (c : Chart) (v : PyVal),
      (c.setFormat v).1.format = none ∨
        (c.setFormat v).1.format = some .plotly) ∧
    (∀ (c : Chart) (v : PyVal), parseChartFormat v = none →
      c.setFormat v = (c, some "ValidationError")) := by
  constructor
  · intro c v
    rcases h : (c.setFormat v).1.format with _ | fm
    · exact Or.inl rfl
    · cases fm
      exact Or.inr rfl
  · intro c v h
    simp [Chart.setFormat, h]

/-- Witness for C10: assigning the invalid format "bokeh" to the default
chart is rejected and leaves it unchanged; the default chart's format is
`plotly`. -/
theorem chart_format_assignment_validated_witness :
    ((Chart.setFormat { } (.pyStr "bokeh")).1.format = none ∨
      (Chart.setFormat { } (.pyStr "bokeh")).1.format = some .plotly) ∧
    Chart.setFormat { } (.pyStr "bokeh") = ({ }, some "ValidationError") :=
  ⟨chart_format_assignment_validated.1 { } (.pyStr "bokeh"),
   chart_format_assignment_validated.2 { } (.pyStr "bokeh") rfl⟩

end OpenBB
